import Mathlib

/-!
# Verification of the `nat-api` dual-protocol mapping engine

Shallow embedding of the mapping orchestrator (`src/index.js`, class
`NatAPI`) and of the UPnP control point's device logic
(`src/lib/upnp/device.js` and `src/unnamed/part_003`, class `Device`).

Network effects (NAT-PMP datagrams, HTTP/SOAP exchanges) are modelled by
an `Oracle` that decides the outcome of each protocol call; every public
operation additionally returns the transcript of protocol calls it made,
so that ordering and fallback claims are statements about that
transcript.

JavaScript conventions mirrored here:
* falsy strings: `null`/`undefined`/`""` — optional strings are
  `Option String` and `""` is treated as falsy where the source does a
  truthiness test;
* falsy numbers: `0` — optional numbers are `Option Int` and `0` is
  treated as falsy where the source does a truthiness test;
* `unordered-array-remove(arr, i)` pops the last element and writes it
  over index `i` (no-op when `i` is out of range);
* `Array.prototype.findIndex` yields `-1` when nothing matches;
* a JS object used as a string-keyed table keeps insertion order and
  replaces in place on re-assignment.
-/

namespace NatApi

/-- A resolved mapping request, the result of `NatAPI._validateInput`
(src/index.js:181-212): ports, protocol (`none` = both/wildcard),
description, ttl and gateway, with orchestrator-level defaults filled
in.  The protocol string keeps the caller's original casing, exactly as
the source does. -/
structure Opts where
  publicPort : Int
  privatePort : Int
  protocol : Option String
  description : String
  ttl : Int
  gateway : Option String
deriving DecidableEq, Repr

/-- One renewal interval entry, the value stored in `_upnpIntervals` /
`_pmpIntervals` (src/index.js:333-338, 388-401).  `period` is the
`setInterval` delay in milliseconds (`this._timeout`).  The callback body
is kept symbolically and given semantics by `runRenewal`. -/
inductive RenewalBody where
  /-- The NAT-PMP renewal callback (src/index.js:392-398): it evaluates
  `await this._pmpMap.bind(this, opts)`.  `bind` returns a function and
  `await` of a plain function resolves to the function itself without
  invoking it, so the callback performs no protocol call; any error
  would be swallowed by its `try`/`catch`. -/
  | pmpNoop (opts : Opts)
  /-- The UPnP renewal callback (src/index.js:335): `() => this._upnpMap(opts)`. -/
  | upnpRemap (opts : Opts)
deriving DecidableEq, Repr

structure IntervalJob where
  period : Int
  body : RenewalBody
deriving DecidableEq, Repr

/-- Orchestrator state: the fields of a `NatAPI` instance
(src/index.js:20-55) that the verified operations read or write.  The
protocol-client fields are booleans — `true` when the corresponding
client object is non-null. -/
structure NatState where
  destroyed : Bool
  openPorts : List Opts
  upnpIntervals : List (String × IntervalJob)
  pmpIntervals : List (String × IntervalJob)
  pmpClient : Bool
  upnpClient : Bool
  ttl : Int
  description : String
  gateway : Option String
  autoUpdate : Bool
  upnpPermanentFallback : Bool
  timeout : Int
deriving DecidableEq, Repr

/-- Errors thrown (JS `throw new Error(...)`) by the orchestrator's
public operations. -/
inductive JsError where
  | destroyed
  | alreadyDestroyed
  | portNotSpecified
  | protocolInvalid
deriving DecidableEq, Repr

/-- One protocol call on the network, as recorded in a transcript. -/
inductive Call where
  | pmpMap (opts : Opts)
  | upnpMap (opts : Opts)
  | pmpUnmap (opts : Opts)
  | upnpUnmap (opts : Opts)
  | pmpIpQuery
  | upnpIpQuery
deriving DecidableEq, Repr

/-- Network oracle: decides the outcome of each protocol call.  The
`..Ok` fields tell whether the underlying client call succeeds (a
failure covers both an error reply and the 1-second NAT-PMP timeout,
which the source turns into `false`/`''` uniformly).  The `..IpResult`
fields give the string produced by `_pmpIp` / `_upnpIp`, where `""`
means the query failed or timed out. -/
structure Oracle where
  pmpMapOk : Opts → Bool
  upnpMapOk : Opts → Bool
  pmpUnmapOk : Opts → Bool
  upnpUnmapOk : Opts → Bool
  pmpIpResult : String
  upnpIpResult : String

/-- The caller-side argument shapes of `map`/`unmap`
(src/index.js:181-200): a full options object, a port pair, a single
port, or anything else (neither object nor number — rejected). -/
structure OptsIn where
  publicPort : Int
  privatePort : Int
  protocol : Option String
  description : Option String
  ttl : Option Int
  gateway : Option String
deriving DecidableEq, Repr

inductive MapArg where
  | obj (o : OptsIn)
  | two (publicPort privatePort : Int)
  | one (port : Int)
  | bad
deriving DecidableEq, Repr

/-- `unordered-array-remove`: pop the last element and write it over
index `i`; out-of-range indices (including `-1` from a failed
`findIndex`) leave the array unchanged. -/
def arrayRemove (arr : List α) (i : Int) : List α :=
  if 0 ≤ i ∧ i < arr.length then
    let rest := arr.dropLast
    match arr.getLast? with
    | some last => if i.toNat < rest.length then rest.set i.toNat last else rest
    | none => arr
  else arr

/-- JS `Array.prototype.findIndex`: index of the first match, `-1` when
none. -/
def jsFindIndex (p : α → Bool) (l : List α) : Int :=
  match l.findIdx? p with
  | some n => (n : Int)
  | none => -1

/-- String-keyed table assignment (`obj[k] = v`): replace in place when
the key exists (a JS object holds each key at most once), else append in
insertion order. -/
def setKey : List (String × IntervalJob) → String → IntervalJob → List (String × IntervalJob)
  | [], k, v => [(k, v)]
  | p :: rest, k, v => if p.1 = k then (k, v) :: rest else p :: setKey rest k v

/-- String-keyed table deletion (`delete obj[k]`). -/
def delKey (m : List (String × IntervalJob)) (k : String) : List (String × IntervalJob) :=
  m.filter (fun p => p.1 ≠ k)

def hasKey (m : List (String × IntervalJob)) (k : String) : Bool :=
  m.any (fun p => p.1 == k)

def getKey (m : List (String × IntervalJob)) (k : String) : Option IntervalJob :=
  (m.find? (fun p => p.1 == k)).map (fun p => p.2)

/-- String concatenation of a protocol value: JS stringifies `null` as
`"null"` inside the interval key template. -/
def protoStr : Option String → String
  | some p => p
  | none => "null"

/-- The interval-table key `publicPort + ':' + privatePort + '-' + protocol`
(src/index.js:334, 390, 434, 494). -/
def intervalKey (opts : Opts) : String :=
  toString opts.publicPort ++ ":" ++ toString opts.privatePort ++ "-" ++ protoStr opts.protocol

/-- `String.prototype.toUpperCase` restricted to ASCII, as a
kernel-reducible function (core `String.toUpper` is implemented with a
partial helper and does not evaluate inside proofs). -/
def jsToUpper (s : String) : String :=
  ⟨s.data.map Char.toUpper⟩

/-- JS truthiness of an optional string (`null`/`undefined`/`""` are
falsy). -/
def strTruthy : Option String → Bool
  | some s => s ≠ ""
  | none => false

namespace NatAPI

/-- `NatAPI._validateInput` (src/index.js:181-212).  Resolves the three
caller shapes, rejects anything else with `'port was not specified'`,
rejects a protocol string whose upper-casing is neither `'UDP'` nor
`'TCP'` with `'protocol is invalid'` (an empty protocol string is falsy
in JS and is skipped, then normalised to `null`), and fills
description/ttl/gateway from the instance defaults (`x || default`, so
`ttl = 0` also falls back).  Note that the source performs no range
check of any kind on the port numbers. -/
def resolveShape : MapArg → Except JsError OptsIn
  | .obj o => .ok o
  | .two a b => .ok ⟨a, b, none, none, none, none⟩
  | .one a => .ok ⟨a, a, none, none, none, none⟩
  | .bad => .error .portNotSpecified

/-- The protocol check of `_validateInput` (src/index.js:202-206): an
absent or empty (falsy) protocol becomes the `null` wildcard; a protocol
string whose upper-casing is neither `'UDP'` nor `'TCP'` is rejected;
anything else is kept with the caller's casing. -/
def resolveProtocol : Option String → Except JsError (Option String)
  | some p =>
    if p = "" then .ok none
    else if jsToUpper p = "UDP" ∨ jsToUpper p = "TCP" then .ok (some p)
    else .error .protocolInvalid
  | none => .ok none

def validateInput (s : NatState) (arg : MapArg) : Except JsError Opts :=
  match resolveShape arg with
  | .error e => .error e
  | .ok base =>
    match resolveProtocol base.protocol with
    | .error e => .error e
    | .ok protocol =>
      .ok ⟨base.publicPort, base.privatePort, protocol,
        (match base.description with
         | some d => if d = "" then s.description else d
         | none => s.description),
        (match base.ttl with
         | some t => if t = 0 then s.ttl else t
         | none => s.ttl),
        (match base.gateway with
         | some g => if g = "" then s.gateway else some g
         | none => s.gateway)⟩

/-- `NatAPI._pmpMap` (src/index.js:345-411).  The NAT-PMP request is
raced against a 1-second timer; both an error reply and the timeout make
the function return `false`, which the oracle decides.  On success, when
`autoUpdate` is set, a renewal interval with delay `this._timeout` is
stored under the mapping's key; its callback is the non-invoking
`bind` expression (see `RenewalBody.pmpNoop`).  The `this._destroyed`
guard at src/index.js:346 is dead code in this sequential model: every
public entry point throws on a destroyed client before reaching this
function, and `destroyed` cannot change during a call. -/
def _pmpMap (s : NatState) (o : Oracle) (opts : Opts) : Bool × NatState × List Call :=
  if o.pmpMapOk opts then
    let s' :=
      if s.autoUpdate then
        { s with pmpIntervals := setKey s.pmpIntervals (intervalKey opts) ⟨s.timeout, .pmpNoop opts⟩ }
      else s
    (true, s', [.pmpMap opts])
  else (false, s, [.pmpMap opts])

/-- `NatAPI._upnpMap` (src/index.js:311-343).  On success, when
`autoUpdate` is set, a renewal interval with delay `this._timeout` is
stored; its callback re-invokes `_upnpMap` on the same `opts`.  The
destroyed guard at src/index.js:312 is dead code as in `_pmpMap`. -/
def _upnpMap (s : NatState) (o : Oracle) (opts : Opts) : Bool × NatState × List Call :=
  if o.upnpMapOk opts then
    let s' :=
      if s.autoUpdate then
        { s with upnpIntervals := setKey s.upnpIntervals (intervalKey opts) ⟨s.timeout, .upnpRemap opts⟩ }
      else s
    (true, s', [.upnpMap opts])
  else (false, s, [.upnpMap opts])

/-- `NatAPI._map` (src/index.js:214-231): NAT-PMP first when its client
exists, then UPnP as fallback; `[false, ...]` when no protocol
succeeded.  The destroyed guard at src/index.js:215 is dead code as in
`_pmpMap`; the surrounding `try`/`catch` only repackages exceptions as
`[false, error]` and no modelled path throws. -/
def _map (s : NatState) (o : Oracle) (opts : Opts) : Bool × NatState × List Call :=
  if s.pmpClient then
    let (r1, s1, c1) := _pmpMap s o opts
    if r1 then (true, s1, c1)
    else if s.upnpClient then
      let (r2, s2, c2) := _upnpMap s1 o opts
      (r2, s2, c1 ++ c2)
    else (false, s1, c1)
  else if s.upnpClient then
    _upnpMap s o opts
  else (false, s, [])

/-- `NatAPI._pmpUnmap` (src/index.js:445-508).  On success the renewal
interval stored under the mapping's key is cleared; on failure (error or
timeout) it returns `false` and the interval table is untouched. -/
def _pmpUnmap (s : NatState) (o : Oracle) (opts : Opts) : Bool × NatState × List Call :=
  if o.pmpUnmapOk opts then
    (true, { s with pmpIntervals := delKey s.pmpIntervals (intervalKey opts) }, [.pmpUnmap opts])
  else (false, s, [.pmpUnmap opts])

/-- `NatAPI._upnpUnmap` (src/index.js:413-443): like `_pmpUnmap` for the
UPnP client and `_upnpIntervals`. -/
def _upnpUnmap (s : NatState) (o : Oracle) (opts : Opts) : Bool × NatState × List Call :=
  if o.upnpUnmapOk opts then
    (true, { s with upnpIntervals := delKey s.upnpIntervals (intervalKey opts) }, [.upnpUnmap opts])
  else (false, s, [.upnpUnmap opts])

/-- `NatAPI._unmap` (src/index.js:288-309): NAT-PMP first when its
client exists, then UPnP as fallback. -/
def _unmap (s : NatState) (o : Oracle) (opts : Opts) : Bool × NatState × List Call :=
  if s.pmpClient then
    let (r1, s1, c1) := _pmpUnmap s o opts
    if r1 then (true, s1, c1)
    else if s.upnpClient then
      let (r2, s2, c2) := _upnpUnmap s1 o opts
      (r2, s2, c1 ++ c2)
    else (false, s1, c1)
  else if s.upnpClient then
    _upnpUnmap s o opts
  else (false, s, [])

/-- `NatAPI.map` (src/index.js:66-109).  The `opts` snapshot is pushed
into `_openPorts` *before* the protocol attempt and rolled back on
failure.  In the single-protocol branch the rollback is
`arrayRemove(_openPorts, _openPorts.indexOf(newOpts))`: `newOpts` is a
freshly allocated copy, so JS reference equality resolves `indexOf` to
the exact position at which it was pushed, which is recorded here as
`idx`.  In the wildcard TCP branch the rollback instead uses
`findIndex` with a structural predicate (src/index.js:100-104). -/
def map (s : NatState) (o : Oracle) (arg : MapArg) :
    Except JsError (Bool × NatState × List Call) :=
  if s.destroyed then .error .destroyed
  else
    match validateInput s arg with
    | .error e => .error e
    | .ok opts =>
      match opts.protocol with
      | some _ =>
        let idx : Int := s.openPorts.length
        let s1 := { s with openPorts := s.openPorts ++ [opts] }
        match _map s1 o opts with
        | (r, s2, calls) =>
          if r then
            .ok (true, s2, calls)
          else
            .ok (false, { s2 with openPorts := arrayRemove s2.openPorts idx }, calls)
      | none =>
        let udp := { opts with protocol := some "UDP" }
        let idxU : Int := s.openPorts.length
        let sU := { s with openPorts := s.openPorts ++ [udp] }
        match _map sU o udp with
        | (r1, s1, c1) =>
          if !r1 then
            .ok (false, { s1 with openPorts := arrayRemove s1.openPorts idxU }, c1)
          else
            let tcp := { opts with protocol := some "TCP" }
            let sT := { s1 with openPorts := s1.openPorts ++ [tcp] }
            match _map sT o tcp with
            | (r2, s2, c2) =>
              if !r2 then
                let j := jsFindIndex
                  (fun q => q.publicPort == tcp.publicPort && q.privatePort == tcp.privatePort &&
                    (q.protocol == tcp.protocol || tcp.protocol == none)) s2.openPorts
                .ok (false, { s2 with openPorts := arrayRemove s2.openPorts j }, c1 ++ c2)
              else
                .ok (true, s2, c1 ++ c2)

/-- `NatAPI.unmap` (src/index.js:120-148): removes the first registry
entry matching the request key (protocol wildcard matches any stored
protocol) before any protocol call, then attempts the protocol
unmapping — for the wildcard case UDP first, returning `false`
immediately when the UDP leg fails. -/
def unmap (s : NatState) (o : Oracle) (arg : MapArg) :
    Except JsError (Bool × NatState × List Call) :=
  if s.destroyed then .error .destroyed
  else
    match validateInput s arg with
    | .error e => .error e
    | .ok opts =>
      let j := jsFindIndex
        (fun q => q.publicPort == opts.publicPort && q.privatePort == opts.privatePort &&
          (q.protocol == opts.protocol || opts.protocol == none)) s.openPorts
      let s0 := { s with openPorts := arrayRemove s.openPorts j }
      match opts.protocol with
      | some _ =>
        match _unmap s0 o opts with
        | (r, s1, c) => .ok (r, s1, c)
      | none =>
        let udp := { opts with protocol := some "UDP" }
        match _unmap s0 o udp with
        | (r1, s1, c1) =>
          if !r1 then
            .ok (false, s1, c1)
          else
            let tcp := { opts with protocol := some "TCP" }
            match _unmap s1 o tcp with
            | (r2, s2, c2) =>
              if !r2 then
                .ok (false, s2, c1 ++ c2)
              else
                .ok (true, s2, c1 ++ c2)

/-- `NatAPI._pmpIp` (src/index.js:233-255): `''` on failure or timeout,
never a thrown error (the destroyed guard at src/index.js:234 is dead
code in the sequential model, as in `_pmpMap`). -/
def _pmpIp (s : NatState) (o : Oracle) : String × List Call :=
  if s.pmpClient then (o.pmpIpResult, [.pmpIpQuery]) else ("", [])

/-- `NatAPI._upnpIp` (src/index.js:257-267): `''` on failure, never a
thrown error. -/
def _upnpIp (s : NatState) (o : Oracle) : String × List Call :=
  if s.upnpClient then (o.upnpIpResult, [.upnpIpQuery]) else ("", [])

/-- `NatAPI.externalIp` (src/index.js:269-286): NAT-PMP first when its
client exists, UPnP as fallback, `''` when both fail; the only throw is
the destroyed guard. -/
def externalIp (s : NatState) (o : Oracle) : Except JsError (String × List Call) :=
  if s.destroyed then .error .destroyed
  else if s.pmpClient then
    if (_pmpIp s o).1 ≠ "" then .ok ((_pmpIp s o).1, (_pmpIp s o).2)
    else if s.upnpClient then
      if (_upnpIp s o).1 ≠ "" then .ok ((_upnpIp s o).1, (_pmpIp s o).2 ++ (_upnpIp s o).2)
      else .ok ("", (_pmpIp s o).2 ++ (_upnpIp s o).2)
    else .ok ("", (_pmpIp s o).2)
  else if s.upnpClient then
    if (_upnpIp s o).1 ≠ "" then .ok ((_upnpIp s o).1, (_upnpIp s o).2)
    else .ok ("", (_upnpIp s o).2)
  else .ok ("", [])

/-- The loop of `NatAPI.destroy` (src/index.js:156-162): unmap every
entry of a snapshot of `_openPorts`, swallowing per-entry failures. -/
def destroyLoop (o : Oracle) : NatState → List Opts → NatState × List Call
  | s, [] => (s, [])
  | s, p :: rest =>
    match unmap s o (.obj ⟨p.publicPort, p.privatePort, p.protocol,
        some p.description, some p.ttl, p.gateway⟩) with
    | .ok (_, s', c) =>
      let (s2, c2) := destroyLoop o s' rest
      (s2, c ++ c2)
    | .error _ =>
      let (s2, c2) := destroyLoop o s rest
      (s2, c2)

/-- `NatAPI.destroy` (src/index.js:150-179): unmaps a snapshot of all
open mappings (continuing past failures), then marks the client
destroyed and closes the protocol clients (the client handles stay
non-null in the source, so the `pmpClient`/`upnpClient` booleans are
unchanged). -/
def destroy (s : NatState) (o : Oracle) : Except JsError (NatState × List Call) :=
  if s.destroyed then .error .alreadyDestroyed
  else
    let (s1, c) := destroyLoop o s s.openPorts
    .ok ({ s1 with destroyed := true }, c)

/-- Firing of one stored renewal interval.  A `pmpNoop` body
(src/index.js:392-398) awaits the result of `Function.prototype.bind`,
which is a function and not a call, so nothing happens; an `upnpRemap`
body (src/index.js:335) re-runs `_upnpMap` on the captured `opts`,
discarding its boolean result. -/
def runRenewal (s : NatState) (o : Oracle) (job : IntervalJob) : NatState × List Call :=
  match job.body with
  | .pmpNoop _ => (s, [])
  | .upnpRemap opts =>
    let (_, s', c) := _upnpMap s o opts
    (s', c)

end NatAPI

/-- Constructor options of `NatAPI` (src/index.js:20-55), with JS
absent/falsy values as `Option`. -/
structure CtorOpts where
  ttl : Option Int
  description : Option String
  gateway : Option String
  autoUpdate : Option Bool
  enablePMP : Option Bool
  enableUPNP : Option Bool
  upnpPermanentFallback : Option Bool
deriving DecidableEq, Repr

/-- The `NatAPI` constructor (src/index.js:20-55).  `ttl` defaults to
7200 and is floored at 1200 when given and truthy; `_timeout` is
`(this.ttl - 600) * 1000`, computed once from the instance-level ttl.
`gatewayLookupOk` stands for the external default-gateway lookup
succeeding, which decides whether a NAT-PMP client is constructed. -/
def newNatAPI (opts : CtorOpts) (gatewayLookupOk : Bool) : NatState :=
  let ttl : Int :=
    match opts.ttl with
    | some t => if t = 0 then 7200 else max t 1200
    | none => 7200
  let enablePMP := opts.enablePMP != some false
  let enableUPNP := opts.enableUPNP != some false
  { destroyed := false
    openPorts := []
    upnpIntervals := []
    pmpIntervals := []
    pmpClient := enablePMP && gatewayLookupOk
    upnpClient := enableUPNP
    ttl := ttl
    description :=
      match opts.description with
      | some d => if d = "" then "NatAPI" else d
      | none => "NatAPI"
    gateway :=
      match opts.gateway with
      | some g => if g = "" then none else some g
      | none => none
    autoUpdate := opts.autoUpdate != some false
    upnpPermanentFallback := opts.upnpPermanentFallback == some true
    timeout := (ttl - 600) * 1000 }

/-! ## UPnP control point: `Device` -/

/-- A JS value appearing as the second component of a SOAP argument
pair. -/
inductive JsVal where
  | str (s : String)
  | num (n : Int)
  | undef
deriving DecidableEq, Repr

/-- A SOAP action argument list, as passed to `Device.run`: pairs of
element name and value. -/
abbrev Args := List (String × JsVal)

/-- A service entry of the device-description document: `serviceType`
and the two URLs, `none` when the element is absent (and `""` falsy per
JS truthiness). -/
structure RawService where
  serviceType : String
  controlURL : Option String
  SCPDURL : Option String
deriving DecidableEq, Repr

/-- A node of the device-description tree.  The source normalizes
singular/plural `deviceList.device` and `serviceList.service` shapes
with `toArray` before traversal (src/lib/upnp/device.js:132-134,
src/unnamed/part_003:151-153); the model starts from the already
normalized lists. -/
inductive UDevice where
  | mk (deviceList : List UDevice) (serviceList : List RawService)

mutual

/-- `Device._parseDescription` (src/lib/upnp/device.js:128-160,
src/unnamed/part_003:147-179), restricted to the `services` accumulator
that `_getService` consumes.  `traverseDevices` recurses into the nested
device list *before* pushing the device's own services, so a device's
services appear after those of its child subtrees. -/
def parseServices : UDevice → List RawService
  | .mk devs svcs => parseServicesList devs ++ svcs

/-- Traversal of a normalized device list, in document order. -/
def parseServicesList : List UDevice → List RawService
  | [] => []
  | d :: ds => parseServices d ++ parseServicesList ds

end

namespace Device

/-- The accepted WAN service types, in declaration order
(src/lib/upnp/device.js:7-11, src/unnamed/part_003:7-11). -/
def acceptedServices : List String :=
  ["urn:schemas-upnp-org:service:WANIPConnection:1",
   "urn:schemas-upnp-org:service:WANIPConnection:2",
   "urn:schemas-upnp-org:service:WANPPPConnection:1"]

/-- Errors raised by the `Device` operations. -/
inductive DevError where
  | serviceNotFound
  /-- A decoded IGD fault with one of the specifically handled codes. -/
  | igd (code : Int)
  /-- The `default:` branch of the fault switch and the non-`upnperror`
  fault branch: `Request failed, status code: 500, ...`. -/
  | requestFailed
  /-- `Request failed: <status>` for a status other than 200/500. -/
  | httpFail (status : Int)
  /-- Model artifact: the submission's awaited HTTP exchange never
  settles (the modelled response list is exhausted). -/
  | pending
deriving DecidableEq, Repr

/-- The resolved service reference returned by `Device._getService`.
The source additionally rewrites both URLs to absolute form with
`addPrefix`; URL resolution is not modelled (no claim depends on it),
so the raw document values are returned. -/
structure ServiceInfo where
  service : String
  controlURL : String
  SCPDURL : String
deriving DecidableEq, Repr

/-- `Device._getService` (src/lib/upnp/device.js:67-104,
src/unnamed/part_003:99-132; both versions have identical selection
logic): flatten the description, keep the services whose type is in the
accepted list, then use `s[0]` — the first match in traversal order —
and fail with `Service not found` when there is no match or `s[0]`
lacks a truthy `controlURL` or `SCPDURL`. -/
def getService (desc : UDevice) : Except DevError ServiceInfo :=
  match (parseServices desc).filter (fun sv => acceptedServices.contains sv.serviceType) with
  | [] => .error .serviceNotFound
  | s0 :: _ =>
    if strTruthy s0.controlURL && strTruthy s0.SCPDURL then
      .ok ⟨s0.serviceType, (s0.controlURL.getD ""), (s0.SCPDURL.getD "")⟩
    else .error .serviceNotFound

/-- The response the gateway gives to one SOAP submission, as consumed
by `Device.run` (src/unnamed/part_003:42-89): HTTP 200 with a parsed
body, HTTP 500 carrying a `UPnPError` fault code, HTTP 500 with a
non-`upnperror` fault string, or another HTTP status. -/
inductive SoapResponse where
  | ok (body : String)
  | fault (code : Int)
  | faultOther
  | httpError (status : Int)
deriving DecidableEq, Repr

/-- The fault codes handled by name in the switch of `Device.run`
(src/unnamed/part_003:53-83), other than 725. -/
def knownFaultCodes : List Int := [606, 714, 715, 716, 718, 724, 726, 727, 728, 729, 732]

/-- `args[args.length - 1] = v` from the 725 branch
(src/unnamed/part_003:69).  On an empty array the JS assignment writes
property `-1` and leaves the element list empty. -/
def setLastArg (args : Args) (v : String × JsVal) : Args :=
  match args with
  | [] => []
  | _ :: _ => args.dropLast ++ [v]

/-- The response-handling loop of `Device.run`
(src/unnamed/part_003:14-97).  One list element is consumed per
submission; the first component of the result is the transcript of
submitted argument lists (the SOAP envelope construction, headers and
the per-invocation service resolution — modelled separately as
`getService` — do not affect this control flow).  On fault code 725 the
last argument is replaced by `('NewLeaseDuration', 0)` and the action is
resubmitted by the recursive `return await this.run(action, args)`;
this happens unconditionally — the `Device` of src/unnamed/part_003
receives no permanent-fallback flag and the recursion has no guard. -/
def run (responses : List SoapResponse) (args : Args) : List Args × Except DevError String :=
  match responses with
  | [] => ([args], .error .pending)
  | r :: rest =>
    match r with
    | .ok body => ([args], .ok body)
    | .httpError st => ([args], .error (.httpFail st))
    | .faultOther => ([args], .error .requestFailed)
    | .fault code =>
      if code = 725 then
        let next := run rest (setLastArg args ("NewLeaseDuration", .num 0))
        (args :: next.1, next.2)
      else if knownFaultCodes.contains code then ([args], .error (.igd code))
      else ([args], .error .requestFailed)

end Device

/-! ## Shared fixtures and helper lemmas -/

/-- A default-constructed client (`new NatAPI()` with the gateway lookup
succeeding): both protocol clients present, `ttl = 7200`,
`_timeout = 6600000` ms, auto-update on. -/
def stDefault : NatState := newNatAPI ⟨none, none, none, none, none, none, none⟩ true

/-- A client with NAT-PMP disabled (`enablePMP: false`), UPnP enabled. -/
def stUpnpOnly : NatState := newNatAPI ⟨none, none, none, none, some false, none, none⟩ true

/-- An oracle on which every protocol call succeeds. -/
def oracleAllOk : Oracle :=
  ⟨fun _ => true, fun _ => true, fun _ => true, fun _ => true, "88.1.2.3", "88.4.5.6"⟩

/-- An oracle on which every protocol call fails and both external-ip
queries produce the empty string. -/
def oracleAllFail : Oracle :=
  ⟨fun _ => false, fun _ => false, fun _ => false, fun _ => false, "", ""⟩

/-- The protocol-call opts carried by a transcript entry (`none` for the
argument-less external-ip queries). -/
def callOpts : Call → Option Opts
  | .pmpMap o => some o
  | .upnpMap o => some o
  | .pmpUnmap o => some o
  | .upnpUnmap o => some o
  | .pmpIpQuery => none
  | .upnpIpQuery => none

/-- The registry predicate of `unmap` (src/index.js:126-130): key
equality with the request's protocol wildcard matching any stored
protocol. -/
def matchesKey (opts : Opts) (q : Opts) : Bool :=
  q.publicPort == opts.publicPort && q.privatePort == opts.privatePort &&
    (q.protocol == opts.protocol || opts.protocol == none)

/-- Claim-side description of the registry effect of `unmap`: the first
entry matching the request key is removed (none, when nothing
matches). -/
def removeFirstMatch (l : List Opts) (opts : Opts) : List Opts :=
  arrayRemove l (jsFindIndex (matchesKey opts) l)

theorem _pmpUnmap_openPorts (s : NatState) (o : Oracle) (p : Opts) :
    ((NatAPI._pmpUnmap s o p).2.1).openPorts = s.openPorts := by
  unfold NatAPI._pmpUnmap
  split <;> rfl

theorem _upnpUnmap_openPorts (s : NatState) (o : Oracle) (p : Opts) :
    ((NatAPI._upnpUnmap s o p).2.1).openPorts = s.openPorts := by
  unfold NatAPI._upnpUnmap
  split <;> rfl

theorem _unmap_openPorts (s : NatState) (o : Oracle) (p : Opts) :
    ((NatAPI._unmap s o p).2.1).openPorts = s.openPorts := by
  unfold NatAPI._unmap
  rcases h1 : NatAPI._pmpUnmap s o p with ⟨r1, s1, c1⟩
  rcases h2 : NatAPI._upnpUnmap s1 o p with ⟨r2, s2, c2⟩
  have e1 : s1.openPorts = s.openPorts := by
    have := _pmpUnmap_openPorts s o p
    rw [h1] at this
    exact this
  have e2 : s2.openPorts = s1.openPorts := by
    have := _upnpUnmap_openPorts s1 o p
    rw [h2] at this
    exact this
  rcases h3 : NatAPI._upnpUnmap s o p with ⟨r3, s3, c3⟩
  have e3 : s3.openPorts = s.openPorts := by
    have := _upnpUnmap_openPorts s o p
    rw [h3] at this
    exact this
  by_cases hp : s.pmpClient <;> by_cases hu : s.upnpClient <;>
    simp [hp, hu, h1, h2, h3, e1, e2, e3] <;> split <;> simp [e1, e2, e3]

theorem _pmpMap_openPorts (s : NatState) (o : Oracle) (p : Opts) :
    ((NatAPI._pmpMap s o p).2.1).openPorts = s.openPorts := by
  unfold NatAPI._pmpMap
  split
  · split <;> rfl
  · rfl

theorem _upnpMap_openPorts (s : NatState) (o : Oracle) (p : Opts) :
    ((NatAPI._upnpMap s o p).2.1).openPorts = s.openPorts := by
  unfold NatAPI._upnpMap
  split
  · split <;> rfl
  · rfl

theorem _map_openPorts (s : NatState) (o : Oracle) (p : Opts) :
    ((NatAPI._map s o p).2.1).openPorts = s.openPorts := by
  unfold NatAPI._map
  rcases h1 : NatAPI._pmpMap s o p with ⟨r1, s1, c1⟩
  rcases h2 : NatAPI._upnpMap s1 o p with ⟨r2, s2, c2⟩
  have e1 : s1.openPorts = s.openPorts := by
    have := _pmpMap_openPorts s o p
    rw [h1] at this
    exact this
  have e2 : s2.openPorts = s1.openPorts := by
    have := _upnpMap_openPorts s1 o p
    rw [h2] at this
    exact this
  rcases h3 : NatAPI._upnpMap s o p with ⟨r3, s3, c3⟩
  have e3 : s3.openPorts = s.openPorts := by
    have := _upnpMap_openPorts s o p
    rw [h3] at this
    exact this
  by_cases hp : s.pmpClient <;> by_cases hu : s.upnpClient <;>
    simp [hp, hu, h1, h2, h3, e1, e2, e3] <;> split <;> simp [e1, e2, e3]

theorem arrayRemove_concat (l : List α) (x : α) :
    arrayRemove (l ++ [x]) (l.length : Int) = l := by
  unfold arrayRemove
  have hlen : (l ++ [x]).length = l.length + 1 := by simp
  have hin : (0 : Int) ≤ (l.length : Int) ∧ (l.length : Int) < ((l ++ [x]).length : Int) := by
    constructor
    · exact Int.ofNat_nonneg _
    · rw [hlen]
      exact_mod_cast Nat.lt_succ_self _
  rw [if_pos hin]
  simp

/-! ## C7 — lifecycle error after destroy -/

/-- C7: after `destroy()` completes, every subsequent call to `map`,
`unmap`, or `externalIp` fails with the lifecycle error (`client is
destroyed`), never with a transport timeout or protocol fault: the
destroyed check precedes validation and any network activity (the
`.error` result carries no transcript, so no protocol call was made),
and `destroy` leaves the state marked destroyed. -/
theorem C7_destroyed_lifecycle :
    (∀ (s : NatState) (o : Oracle) (arg : MapArg), s.destroyed = true →
      NatAPI.map s o arg = .error .destroyed) ∧
    (∀ (s : NatState) (o : Oracle) (arg : MapArg), s.destroyed = true →
      NatAPI.unmap s o arg = .error .destroyed) ∧
    (∀ (s : NatState) (o : Oracle), s.destroyed = true →
      NatAPI.externalIp s o = .error .destroyed) ∧
    (∀ (s s' : NatState) (o : Oracle) (c : List Call),
      NatAPI.destroy s o = .ok (s', c) → s'.destroyed = true) := by
  refine ⟨?_, ?_, ?_, ?_⟩
  · intro s o arg h
    unfold NatAPI.map
    rw [h]
    rfl
  · intro s o arg h
    unfold NatAPI.unmap
    rw [h]
    rfl
  · intro s o h
    unfold NatAPI.externalIp
    rw [h]
    rfl
  · intro s s' o c h
    unfold NatAPI.destroy at h
    by_cases hd : s.destroyed
    · simp [hd] at h
    · simp [hd] at h
      rcases h with ⟨h1, _⟩
      rw [← h1]

/-- C7 witness: a destroyed default client rejects `map` with the
lifecycle error. -/
theorem C7_destroyed_lifecycle_witness :
    ({ stDefault with destroyed := true } : NatState).destroyed = true ∧
    NatAPI.map { stDefault with destroyed := true } oracleAllOk (.two 1 1)
      = .error .destroyed :=
  ⟨rfl, C7_destroyed_lifecycle.1 { stDefault with destroyed := true } oracleAllOk (.two 1 1) rfl⟩

/-! ## C10 — protocol-string casing round trip -/

/-- The resolved request of a `map` called with protocol `'tcp'`: the
caller's casing is preserved. -/
def tcpLowerOpts : Opts := ⟨2000, 2000, some "tcp", "NatAPI", 7200, none⟩

/-- The resolved request of an `unmap` called with protocol `'TCP'`. -/
def tcpUpperOpts : Opts := ⟨2000, 2000, some "TCP", "NatAPI", 7200, none⟩

/-- The state after mapping 2000:2000 with protocol `'tcp'` over
NAT-PMP on a default client. -/
def c10Mapped : NatState :=
  { stDefault with
      openPorts := [tcpLowerOpts]
      pmpIntervals := [("2000:2000-tcp", ⟨6600000, .pmpNoop tcpLowerOpts⟩)] }

/-- C10: validation accepts `'tcp'` case-insensitively but preserves the
caller's casing in the stored registry entry and interval key, while
registry matching and interval lookup are case-sensitive: a subsequent
`unmap` with `'TCP'` removes no registry entry and clears no interval —
the map/unmap round trip does not restore the state. -/
theorem C10_protocol_casing :
    NatAPI.validateInput stDefault (.obj ⟨2000, 2000, some "tcp", none, none, none⟩)
      = .ok tcpLowerOpts ∧
    NatAPI.map stDefault oracleAllOk (.obj ⟨2000, 2000, some "tcp", none, none, none⟩)
      = .ok (true, c10Mapped, [Call.pmpMap tcpLowerOpts]) ∧
    c10Mapped.openPorts = [tcpLowerOpts] ∧
    hasKey c10Mapped.pmpIntervals "2000:2000-tcp" = true ∧
    NatAPI.unmap c10Mapped oracleAllOk (.obj ⟨2000, 2000, some "TCP", none, none, none⟩)
      = .ok (true, c10Mapped, [Call.pmpUnmap tcpUpperOpts]) ∧
    hasKey c10Mapped.pmpIntervals "2000:2000-TCP" = false :=
  ⟨rfl, rfl, rfl, rfl, rfl, rfl⟩

/-! ## C1 — UPnP fault 725 resubmission -/

/-- A concrete `AddPortMapping` argument list, with the lease duration
as its last pair. -/
def c1Args : Args :=
  [("NewRemoteHost", .str ""), ("NewExternalPort", .num 6690), ("NewProtocol", .str "TCP"),
   ("NewInternalPort", .num 6690), ("NewInternalClient", .str "192.168.1.2"),
   ("NewEnabled", .num 1), ("NewPortMappingDescription", .str "NatAPI"),
   ("NewLeaseDuration", .num 7200)]

/-- C1 counterexample: against the fault sequence 725, 725, success, the
action is submitted three times — the second 725 triggers a *second*
resubmission (both resubmissions carrying lease duration 0), contrary to
the claimed once-only resubmission; and `Device.run` consults no
permanent-fallback configuration at all (its resubmission already
happens on a plain 725-then-success exchange). -/
theorem C1_counterexample :
    (Device.run [.fault 725, .fault 725, .ok "resp"] c1Args).1.length = 3 ∧
    ((Device.run [.fault 725, .fault 725, .ok "resp"] c1Args).1.map (fun a => a.getLast?))
      = [some ("NewLeaseDuration", .num 7200), some ("NewLeaseDuration", .num 0),
         some ("NewLeaseDuration", .num 0)] ∧
    (Device.run [.fault 725, .ok "resp"] c1Args).2 = .ok "resp" :=
  ⟨rfl, rfl, rfl⟩

/-- Number of leading fault-725 responses in a response sequence. -/
def leading725 : List Device.SoapResponse → Nat
  | [] => 0
  | r :: rest =>
    match r with
    | .fault c => if c = 725 then leading725 rest + 1 else 0
    | _ => 0

theorem run_keeps_zero_lease (rs : List Device.SoapResponse) (args : Args)
    (h1 : args ≠ []) (h2 : args.getLast? = some ("NewLeaseDuration", JsVal.num 0)) :
    ∀ a ∈ (Device.run rs args).1, a.getLast? = some ("NewLeaseDuration", JsVal.num 0) := by
  induction rs generalizing args with
  | nil =>
    intro a ha
    simp [Device.run] at ha
    subst ha
    exact h2
  | cons r rest ih =>
    intro a ha
    cases r with
    | ok body =>
      simp [Device.run] at ha
      subst ha
      exact h2
    | httpError st =>
      simp [Device.run] at ha
      subst ha
      exact h2
    | faultOther =>
      simp [Device.run] at ha
      subst ha
      exact h2
    | fault code =>
      by_cases hc : code = 725
      · simp [Device.run, hc] at ha
        rcases ha with ha | ha
        · subst ha
          exact h2
        · have hne : Device.setLastArg args ("NewLeaseDuration", JsVal.num 0) ≠ [] := by
            cases args with
            | nil => exact absurd rfl h1
            | cons x xs => simp [Device.setLastArg]
          have hlast : (Device.setLastArg args ("NewLeaseDuration", JsVal.num 0)).getLast?
              = some ("NewLeaseDuration", JsVal.num 0) := by
            cases args with
            | nil => exact absurd rfl h1
            | cons x xs => simp [Device.setLastArg]
          exact ih _ hne hlast a ha
      · simp [Device.run, hc] at ha
        split at ha <;> simp at ha <;> (subst ha; exact h2)

/-- C1 amended: on an IGD 725 fault, `Device.run` resubmits the action
with its last argument replaced by `('NewLeaseDuration', 0)` — once per
consecutive 725 response, without any once-only guard and without
consulting the permanent-lease-fallback configuration (the `Device` of
src/unnamed/part_003 receives no such flag): the number of submissions
is one more than the number of leading 725 faults, and every
resubmission carries lease duration 0. -/
theorem C1_amended (rs : List Device.SoapResponse) (args : Args) (h : args ≠ []) :
    (Device.run rs args).1.length = leading725 rs + 1 ∧
    ∀ a ∈ (Device.run rs args).1.tail,
      a.getLast? = some ("NewLeaseDuration", JsVal.num 0) := by
  induction rs generalizing args with
  | nil =>
    refine ⟨rfl, ?_⟩
    intro a ha
    simp [Device.run] at ha
  | cons r rest ih =>
    cases r with
    | ok body =>
      refine ⟨by simp [Device.run, leading725], ?_⟩
      intro a ha
      simp [Device.run] at ha
    | httpError st =>
      refine ⟨by simp [Device.run, leading725], ?_⟩
      intro a ha
      simp [Device.run] at ha
    | faultOther =>
      refine ⟨by simp [Device.run, leading725], ?_⟩
      intro a ha
      simp [Device.run] at ha
    | fault code =>
      by_cases hc : code = 725
      · subst hc
        have hne : Device.setLastArg args ("NewLeaseDuration", JsVal.num 0) ≠ [] := by
          cases args with
          | nil => exact absurd rfl h
          | cons x xs => simp [Device.setLastArg]
        have hlast : (Device.setLastArg args ("NewLeaseDuration", JsVal.num 0)).getLast?
            = some ("NewLeaseDuration", JsVal.num 0) := by
          cases args with
          | nil => exact absurd rfl h
          | cons x xs => simp [Device.setLastArg]
        constructor
        · have := (ih _ hne).1
          simp [Device.run, leading725, this]
        · intro a ha
          simp [Device.run] at ha
          exact run_keeps_zero_lease rest _ hne hlast a ha
      · constructor
        · simp [Device.run, leading725, hc]
          split <;> rfl
        · intro a ha
          simp [Device.run, hc] at ha
          split at ha <;> simp at ha

/-- C1 amended, witnessed at a single 725 fault: two submissions, the
second with lease duration 0. -/
theorem C1_amended_witness :
    c1Args ≠ [] ∧
    ((Device.run [Device.SoapResponse.fault 725] c1Args).1.length
        = leading725 [Device.SoapResponse.fault 725] + 1 ∧
      ∀ a ∈ (Device.run [Device.SoapResponse.fault 725] c1Args).1.tail,
        a.getLast? = some ("NewLeaseDuration", JsVal.num 0)) :=
  ⟨by decide, C1_amended [Device.SoapResponse.fault 725] c1Args (by decide)⟩

/-! ## C6 — UPnP service selection -/

/-- A device description that lists a complete, accepted
WANPPPConnection:1 service *before* a complete, accepted
WANIPConnection:1 service. -/
def c6DocOrder : UDevice :=
  .mk [] [⟨"urn:schemas-upnp-org:service:WANPPPConnection:1", some "/ppp-ctl", some "/ppp-scpd"⟩,
          ⟨"urn:schemas-upnp-org:service:WANIPConnection:1", some "/ip-ctl", some "/ip-scpd"⟩]

/-- A device description whose first accepted service lacks a
controlURL while a later accepted service exposes both URLs. -/
def c6FirstIncomplete : UDevice :=
  .mk [] [⟨"urn:schemas-upnp-org:service:WANIPConnection:1", none, some "/scpd1"⟩,
          ⟨"urn:schemas-upnp-org:service:WANIPConnection:2", some "/ctl2", some "/scpd2"⟩]

/-- C6 counterexample: with WANPPPConnection:1 listed before
WANIPConnection:1 the code selects WANPPPConnection:1 (document order,
not the claimed fixed priority order); and when only the *first*
accepted service lacks a controlURL the code fails with Service not
found even though another candidate exposes both URLs — so the failure
condition is not "exactly when no candidate exposes both". -/
theorem C6_counterexample :
    Device.getService c6DocOrder
      = .ok ⟨"urn:schemas-upnp-org:service:WANPPPConnection:1", "/ppp-ctl", "/ppp-scpd"⟩ ∧
    (parseServices c6DocOrder).any
      (fun sv => sv.serviceType == "urn:schemas-upnp-org:service:WANIPConnection:1") = true ∧
    Device.getService c6FirstIncomplete = .error .serviceNotFound ∧
    (parseServices c6FirstIncomplete).any (fun sv =>
      Device.acceptedServices.contains sv.serviceType && strTruthy sv.controlURL
        && strTruthy sv.SCPDURL) = true :=
  ⟨rfl, rfl, rfl, rfl⟩

theorem filter_head?_eq_find? (p : α → Bool) (l : List α) :
    (l.filter p).head? = l.find? p := by
  induction l with
  | nil => rfl
  | cons a t ih =>
    by_cases h : p a = true
    · simp [List.filter_cons, List.find?_cons, h]
    · simp [List.filter_cons, List.find?_cons, h, ih]

/-- C6 amended: service resolution flattens the description tree
depth-first with a device's own service list appended *after* the
services of its nested device subtrees, and selects the *first* service
in that flattened order whose type is accepted — document order, with
no priority among the three accepted types; it succeeds exactly when
that first match exposes a truthy controlURL and SCPDURL, and fails
with "Service not found" otherwise (even if a later candidate exposes
both). -/
theorem C6_amended (desc : UDevice) :
    Device.getService desc =
      match (parseServices desc).find?
          (fun sv => Device.acceptedServices.contains sv.serviceType) with
      | none => .error .serviceNotFound
      | some s0 =>
        if strTruthy s0.controlURL && strTruthy s0.SCPDURL then
          .ok ⟨s0.serviceType, s0.controlURL.getD "", s0.SCPDURL.getD ""⟩
        else .error .serviceNotFound := by
  unfold Device.getService
  rw [← filter_head?_eq_find?]
  cases hf : (parseServices desc).filter
      (fun sv => Device.acceptedServices.contains sv.serviceType) with
  | nil => rfl
  | cons s0 t => rfl

/-! ## C5 — request validation -/

theorem map_validation_error (s : NatState) (o : Oracle) (arg : MapArg) (e : JsError)
    (hd : s.destroyed = false) (hv : NatAPI.validateInput s arg = .error e) :
    NatAPI.map s o arg = .error e := by
  unfold NatAPI.map
  rw [hd, hv]
  rfl

theorem unmap_validation_error (s : NatState) (o : Oracle) (arg : MapArg) (e : JsError)
    (hd : s.destroyed = false) (hv : NatAPI.validateInput s arg = .error e) :
    NatAPI.unmap s o arg = .error e := by
  unfold NatAPI.unmap
  rw [hd, hv]
  rfl

/-- The state after `map(70000, 70000)` fully succeeds over NAT-PMP on
a default client: two registry entries and two renewal intervals. -/
def c5St : NatState :=
  { stDefault with
      openPorts := [⟨70000, 70000, some "UDP", "NatAPI", 7200, none⟩,
                    ⟨70000, 70000, some "TCP", "NatAPI", 7200, none⟩]
      pmpIntervals :=
        [("70000:70000-UDP", ⟨6600000, .pmpNoop ⟨70000, 70000, some "UDP", "NatAPI", 7200, none⟩⟩),
         ("70000:70000-TCP", ⟨6600000, .pmpNoop ⟨70000, 70000, some "TCP", "NatAPI", 7200, none⟩⟩)] }

/-- C5 counterexample: port 70000 is outside the uint16 range, yet
`map(70000, 70000)` passes validation, reaches the network (two NAT-PMP
calls appear in the transcript) and succeeds — no port-range check
exists in `_validateInput`. -/
theorem C5_counterexample :
    NatAPI.map stDefault oracleAllOk (.two 70000 70000)
      = .ok (true, c5St,
          [Call.pmpMap ⟨70000, 70000, some "UDP", "NatAPI", 7200, none⟩,
           Call.pmpMap ⟨70000, 70000, some "TCP", "NatAPI", 7200, none⟩]) ∧
    (65535 : Int) < 70000 :=
  ⟨rfl, by decide⟩

/-- C5 amended: `map` and `unmap` validate the request's *shape* and
*protocol string* before any network I/O — a non-number/non-object
argument fails immediately with `'port was not specified'` and a
protocol that does not upper-case to UDP/TCP fails immediately with
`'protocol is invalid'`, in both cases with no protocol call (the error
result carries no transcript) — but the port range is not validated:
any integer ports pass validation unchanged. -/
theorem C5_amended :
    (∀ s : NatState, NatAPI.validateInput s .bad = .error .portNotSpecified) ∧
    (∀ (s : NatState) (o : Oracle), s.destroyed = false →
      NatAPI.map s o .bad = .error .portNotSpecified ∧
      NatAPI.unmap s o .bad = .error .portNotSpecified) ∧
    (∀ (s : NatState) (oin : OptsIn) (p : String), oin.protocol = some p → p ≠ "" →
      jsToUpper p ≠ "UDP" → jsToUpper p ≠ "TCP" →
      NatAPI.validateInput s (.obj oin) = .error .protocolInvalid ∧
      ∀ o : Oracle, s.destroyed = false →
        NatAPI.map s o (.obj oin) = .error .protocolInvalid ∧
        NatAPI.unmap s o (.obj oin) = .error .protocolInvalid) ∧
    (∀ (s : NatState) (pub priv : Int),
      NatAPI.validateInput s (.two pub priv)
        = .ok ⟨pub, priv, none, s.description, s.ttl, s.gateway⟩) := by
  refine ⟨?_, ?_, ?_, ?_⟩
  · intro s
    rfl
  · intro s o hd
    exact ⟨map_validation_error s o .bad .portNotSpecified hd rfl,
           unmap_validation_error s o .bad .portNotSpecified hd rfl⟩
  · intro s oin p hp h1 h2 h3
    have hv : NatAPI.validateInput s (.obj oin) = .error .protocolInvalid := by
      simp [NatAPI.validateInput, NatAPI.resolveShape, NatAPI.resolveProtocol, hp, h1, h2, h3]
    refine ⟨hv, ?_⟩
    intro o hd
    exact ⟨map_validation_error _ _ _ _ hd hv, unmap_validation_error _ _ _ _ hd hv⟩
  · intro s pub priv
    rfl

/-! ## C2 — optimistic registry removal on unmap -/

def udpE1000 : Opts := ⟨1000, 1000, some "UDP", "NatAPI", 7200, none⟩

def tcpE1000 : Opts := ⟨1000, 1000, some "TCP", "NatAPI", 7200, none⟩

/-- A default client holding the two registry entries a protocol-
unspecified `map(1000, 1000)` would have left. -/
def c2St : NatState := { stDefault with openPorts := [udpE1000, tcpE1000] }

/-- C2 counterexample: a protocol-unspecified `unmap(1000, 1000)`
against a registry holding the matching UDP *and* TCP entries removes
only the first of them — the TCP entry survives even though it matches
the request's wildcard key, so not all matching entries are removed. -/
theorem C2_counterexample :
    NatAPI.unmap c2St oracleAllOk (.two 1000 1000)
      = .ok (true, { c2St with openPorts := [tcpE1000] },
          [Call.pmpUnmap udpE1000, Call.pmpUnmap tcpE1000]) ∧
    matchesKey ⟨1000, 1000, none, "NatAPI", 7200, none⟩ tcpE1000 = true :=
  ⟨rfl, rfl⟩

/-- C2 amended: every `unmap` call removes exactly the *first* registry
entry matching the request's key (ports equal; protocol equal, or any
stored protocol when the request's protocol is the wildcard) — at most
one entry, not all of them — and this removal is unconditional and
independent of the protocol calls' outcomes: for every oracle, the
final registry equals the first-match removal from the pre-call
registry. -/
theorem C2_amended (s : NatState) (o : Oracle) (arg : MapArg) (opts : Opts)
    (r : Bool) (s' : NatState) (c : List Call)
    (hd : s.destroyed = false) (hv : NatAPI.validateInput s arg = .ok opts)
    (h : NatAPI.unmap s o arg = .ok (r, s', c)) :
    s'.openPorts = removeFirstMatch s.openPorts opts := by
  unfold NatAPI.unmap at h
  simp only [hd, Bool.false_eq_true, if_false, hv] at h
  have hrm : removeFirstMatch s.openPorts opts
      = arrayRemove s.openPorts (jsFindIndex (fun q =>
          q.publicPort == opts.publicPort && q.privatePort == opts.privatePort &&
            (q.protocol == opts.protocol || opts.protocol == none)) s.openPorts) := rfl
  rw [hrm]
  cases hp : opts.protocol with
  | some p =>
    simp only [hp] at h
    simp only [Except.ok.injEq, Prod.mk.injEq] at h
    obtain ⟨-, h2, -⟩ := h
    rw [← h2, _unmap_openPorts]
  | none =>
    simp only [hp] at h
    split at h
    · simp only [Except.ok.injEq, Prod.mk.injEq] at h
      obtain ⟨-, h2, -⟩ := h
      rw [← h2, _unmap_openPorts]
    · split at h
      · simp only [Except.ok.injEq, Prod.mk.injEq] at h
        obtain ⟨-, h2, -⟩ := h
        rw [← h2, _unmap_openPorts, _unmap_openPorts]
      · simp only [Except.ok.injEq, Prod.mk.injEq] at h
        obtain ⟨-, h2, -⟩ := h
        rw [← h2, _unmap_openPorts, _unmap_openPorts]

/-- C2 amended, witnessed: on the counterexample state the final
registry is exactly the first-match removal. -/
theorem C2_amended_witness :
    c2St.destroyed = false ∧
    NatAPI.validateInput c2St (.two 1000 1000)
      = .ok ⟨1000, 1000, none, "NatAPI", 7200, none⟩ ∧
    ({ c2St with openPorts := [tcpE1000] } : NatState).openPorts
      = removeFirstMatch c2St.openPorts ⟨1000, 1000, none, "NatAPI", 7200, none⟩ :=
  ⟨rfl, rfl,
    C2_amended c2St oracleAllOk (.two 1000 1000) ⟨1000, 1000, none, "NatAPI", 7200, none⟩
      true { c2St with openPorts := [tcpE1000] }
      [Call.pmpUnmap udpE1000, Call.pmpUnmap tcpE1000] rfl rfl rfl⟩

/-! ## C3 — registry shape after map -/

/-- C3: a protocol-unspecified `map` that returns success appends
exactly the UDP entry and the TCP entry to the registry (each recorded
before the call returns); and a single-protocol `map` that returns
failure leaves the registry unchanged — the optimistically pushed entry
is rolled back. -/
theorem C3_map_registry :
    (∀ (s : NatState) (o : Oracle) (pub priv : Int) (s' : NatState) (c : List Call),
      s.destroyed = false →
      NatAPI.map s o (.two pub priv) = .ok (true, s', c) →
      s'.openPorts = s.openPorts ++
        [⟨pub, priv, some "UDP", s.description, s.ttl, s.gateway⟩,
         ⟨pub, priv, some "TCP", s.description, s.ttl, s.gateway⟩]) ∧
    (∀ (s : NatState) (o : Oracle) (arg : MapArg) (opts : Opts) (p : String)
        (s' : NatState) (c : List Call),
      s.destroyed = false →
      NatAPI.validateInput s arg = .ok opts → opts.protocol = some p →
      NatAPI.map s o arg = .ok (false, s', c) →
      s'.openPorts = s.openPorts) := by
  constructor
  · intro s o pub priv s' c hd h
    unfold NatAPI.map at h
    have hv : NatAPI.validateInput s (.two pub priv)
        = .ok ⟨pub, priv, none, s.description, s.ttl, s.gateway⟩ := rfl
    simp only [hd, Bool.false_eq_true, if_false, hv] at h
    split at h
    · simp at h
    · split at h
      · simp at h
      · simp only [Except.ok.injEq, Prod.mk.injEq] at h
        obtain ⟨-, h2, -⟩ := h
        rw [← h2]
        simp [_map_openPorts]
  · intro s o arg opts p s' c hd hv hp h
    unfold NatAPI.map at h
    simp only [hd, Bool.false_eq_true, if_false, hv, hp] at h
    split at h
    · simp at h
    · simp only [Except.ok.injEq, Prod.mk.injEq] at h
      obtain ⟨-, h2, -⟩ := h
      rw [← h2]
      simp [_map_openPorts, arrayRemove_concat]

/-- The state after a fully successful wildcard `map(1500, 1500)` over
NAT-PMP on a default client. -/
def c3St : NatState :=
  { stDefault with
      openPorts := [⟨1500, 1500, some "UDP", "NatAPI", 7200, none⟩,
                    ⟨1500, 1500, some "TCP", "NatAPI", 7200, none⟩]
      pmpIntervals :=
        [("1500:1500-UDP", ⟨6600000, .pmpNoop ⟨1500, 1500, some "UDP", "NatAPI", 7200, none⟩⟩),
         ("1500:1500-TCP", ⟨6600000, .pmpNoop ⟨1500, 1500, some "TCP", "NatAPI", 7200, none⟩⟩)] }

/-- C3, witnessed on a concrete fully successful wildcard map. -/
theorem C3_map_registry_witness :
    stDefault.destroyed = false ∧
    NatAPI.map stDefault oracleAllOk (.two 1500 1500)
      = .ok (true, c3St,
          [Call.pmpMap ⟨1500, 1500, some "UDP", "NatAPI", 7200, none⟩,
           Call.pmpMap ⟨1500, 1500, some "TCP", "NatAPI", 7200, none⟩]) ∧
    c3St.openPorts = stDefault.openPorts ++
      [⟨1500, 1500, some "UDP", stDefault.description, stDefault.ttl, stDefault.gateway⟩,
       ⟨1500, 1500, some "TCP", stDefault.description, stDefault.ttl, stDefault.gateway⟩] :=
  ⟨rfl, rfl,
    C3_map_registry.1 stDefault oracleAllOk 1500 1500 c3St
      [Call.pmpMap ⟨1500, 1500, some "UDP", "NatAPI", 7200, none⟩,
       Call.pmpMap ⟨1500, 1500, some "TCP", "NatAPI", 7200, none⟩] rfl rfl⟩

/-! ## C4 — wildcard unmap short-circuits -/

/-- An oracle on which the UPnP unmap of a UDP request fails while
every other call succeeds. -/
def c4Oracle : Oracle :=
  ⟨fun _ => true, fun _ => true, fun _ => true, fun q => q.protocol != some "UDP", "", ""⟩

/-- C4 counterexample: with NAT-PMP disabled, a protocol-unspecified
`unmap(3000, 3000)` whose UDP leg fails returns failure after the UDP
attempt alone — the TCP attempt (which would have succeeded on this
oracle) is never made. -/
theorem C4_counterexample :
    NatAPI.unmap stUpnpOnly c4Oracle (.two 3000 3000)
      = .ok (false, stUpnpOnly,
          [Call.upnpUnmap ⟨3000, 3000, some "UDP", "NatAPI", 7200, none⟩]) ∧
    c4Oracle.upnpUnmapOk ⟨3000, 3000, some "TCP", "NatAPI", 7200, none⟩ = true ∧
    Call.upnpUnmap ⟨3000, 3000, some "TCP", "NatAPI", 7200, none⟩
      ∉ [Call.upnpUnmap ⟨3000, 3000, some "UDP", "NatAPI", 7200, none⟩] :=
  ⟨rfl, rfl, by decide⟩

theorem _pmpUnmap_result (s : NatState) (o : Oracle) (p : Opts) :
    (NatAPI._pmpUnmap s o p).1 = o.pmpUnmapOk p ∧
    (NatAPI._pmpUnmap s o p).2.2 = [Call.pmpUnmap p] := by
  unfold NatAPI._pmpUnmap
  by_cases h : o.pmpUnmapOk p <;> simp [h]

theorem _upnpUnmap_result (s : NatState) (o : Oracle) (p : Opts) :
    (NatAPI._upnpUnmap s o p).1 = o.upnpUnmapOk p ∧
    (NatAPI._upnpUnmap s o p).2.2 = [Call.upnpUnmap p] := by
  unfold NatAPI._upnpUnmap
  by_cases h : o.upnpUnmapOk p <;> simp [h]

/-- Every protocol call an `_unmap` makes targets the request it was
given. -/
theorem _unmap_calls_opts (s : NatState) (o : Oracle) (p : Opts) :
    ∀ k ∈ (NatAPI._unmap s o p).2.2, callOpts k = some p := by
  intro k hk
  unfold NatAPI._unmap at hk
  rcases h1 : NatAPI._pmpUnmap s o p with ⟨r1, s1, c1⟩
  rcases h2 : NatAPI._upnpUnmap s1 o p with ⟨r2, s2, c2⟩
  rcases h3 : NatAPI._upnpUnmap s o p with ⟨r3, s3, c3⟩
  have e1 : c1 = [Call.pmpUnmap p] := by
    have := (_pmpUnmap_result s o p).2
    rw [h1] at this
    exact this
  have e2 : c2 = [Call.upnpUnmap p] := by
    have := (_upnpUnmap_result s1 o p).2
    rw [h2] at this
    exact this
  have e3 : c3 = [Call.upnpUnmap p] := by
    have := (_upnpUnmap_result s o p).2
    rw [h3] at this
    exact this
  by_cases hp : s.pmpClient <;> by_cases hu : s.upnpClient <;>
    simp only [hp, hu, h1, h2, h3, if_true, if_false] at hk <;>
    split at hk <;>
    simp_all [callOpts]
  rcases hk with rfl | rfl <;> rfl

/-- A successful `_unmap` made at least one protocol call, necessarily
on its own request. -/
theorem _unmap_true_called (s : NatState) (o : Oracle) (p : Opts) :
    (NatAPI._unmap s o p).1 = true →
    ∃ k ∈ (NatAPI._unmap s o p).2.2, callOpts k = some p := by
  intro hr
  unfold NatAPI._unmap at hr ⊢
  rcases h1 : NatAPI._pmpUnmap s o p with ⟨r1, s1, c1⟩
  rcases h2 : NatAPI._upnpUnmap s1 o p with ⟨r2, s2, c2⟩
  rcases h3 : NatAPI._upnpUnmap s o p with ⟨r3, s3, c3⟩
  have e1 : c1 = [Call.pmpUnmap p] := by
    have := (_pmpUnmap_result s o p).2
    rw [h1] at this
    exact this
  have e2 : c2 = [Call.upnpUnmap p] := by
    have := (_upnpUnmap_result s1 o p).2
    rw [h2] at this
    exact this
  have e3 : c3 = [Call.upnpUnmap p] := by
    have := (_upnpUnmap_result s o p).2
    rw [h3] at this
    exact this
  by_cases hp : s.pmpClient <;> by_cases hu : s.upnpClient <;>
    simp only [hp, hu, h1, h2, h3, if_true, if_false] at hr ⊢ <;>
    split at hr <;>
    simp_all [callOpts]

/-- C4 amended: a protocol-unspecified `unmap` attempts UDP first and,
when the UDP leg fails, returns failure immediately without any TCP
attempt (every transcript entry targets the UDP request); it reports
success only when both the UDP and the TCP legs were attempted and
succeeded. -/
theorem C4_amended :
    (∀ (s : NatState) (o : Oracle) (pub priv : Int),
      s.destroyed = false →
      (NatAPI._unmap
          { s with openPorts := (removeFirstMatch s.openPorts
              ⟨pub, priv, none, s.description, s.ttl, s.gateway⟩) } o
          ⟨pub, priv, some "UDP", s.description, s.ttl, s.gateway⟩).1 = false →
      ∃ s' c, NatAPI.unmap s o (.two pub priv) = .ok (false, s', c) ∧
        ∀ k ∈ c, callOpts k = some ⟨pub, priv, some "UDP", s.description, s.ttl, s.gateway⟩) ∧
    (∀ (s : NatState) (o : Oracle) (pub priv : Int) (s' : NatState) (c : List Call),
      s.destroyed = false →
      NatAPI.unmap s o (.two pub priv) = .ok (true, s', c) →
      (∃ k ∈ c, callOpts k = some ⟨pub, priv, some "UDP", s.description, s.ttl, s.gateway⟩) ∧
      (∃ k ∈ c, callOpts k = some ⟨pub, priv, some "TCP", s.description, s.ttl, s.gateway⟩)) := by
  constructor
  · intro s o pub priv hd hfail
    unfold NatAPI.unmap
    have hv : NatAPI.validateInput s (.two pub priv)
        = .ok ⟨pub, priv, none, s.description, s.ttl, s.gateway⟩ := rfl
    rw [if_neg (by simp [hd])]
    simp only [hv]
    rw [show (NatAPI._unmap
        { s with openPorts := arrayRemove s.openPorts (jsFindIndex (fun q =>
            q.publicPort == pub && q.privatePort == priv &&
              (q.protocol == (none : Option String) || (none : Option String) == none))
            s.openPorts) } o
        ⟨pub, priv, some "UDP", s.description, s.ttl, s.gateway⟩).1 = false from hfail]
    exact ⟨_, _, rfl, _unmap_calls_opts _ o _⟩
  · intro s o pub priv s' c hd h
    unfold NatAPI.unmap at h
    have hv : NatAPI.validateInput s (.two pub priv)
        = .ok ⟨pub, priv, none, s.description, s.ttl, s.gateway⟩ := rfl
    simp only [hd, Bool.false_eq_true, if_false, hv] at h
    split at h
    · simp at h
    · split at h
      · simp at h
      · rename_i hr1 hr2
        simp only [Except.ok.injEq, Prod.mk.injEq] at h
        obtain ⟨-, -, h3⟩ := h
        rw [← h3]
        simp only [Bool.not_eq_true', Bool.not_eq_false] at hr1 hr2
        constructor
        · obtain ⟨k, hk, hko⟩ := _unmap_true_called _ o _ hr1
          exact ⟨k, List.mem_append_left _ hk, hko⟩
        · obtain ⟨k, hk, hko⟩ := _unmap_true_called _ o _ hr2
          exact ⟨k, List.mem_append_right _ hk, hko⟩

/-- C4 amended, witnessed on the counterexample scenario. -/
theorem C4_amended_witness :
    stUpnpOnly.destroyed = false ∧
    (NatAPI._unmap
        { stUpnpOnly with openPorts := (removeFirstMatch stUpnpOnly.openPorts
            ⟨3000, 3000, none, "NatAPI", 7200, none⟩) } c4Oracle
        ⟨3000, 3000, some "UDP", "NatAPI", 7200, none⟩).1 = false ∧
    (∃ s' c, NatAPI.unmap stUpnpOnly c4Oracle (.two 3000 3000) = .ok (false, s', c) ∧
      ∀ k ∈ c, callOpts k
        = some ⟨3000, 3000, some "UDP", stUpnpOnly.description, stUpnpOnly.ttl,
            stUpnpOnly.gateway⟩) :=
  ⟨rfl, rfl, C4_amended.1 stUpnpOnly c4Oracle 3000 3000 rfl rfl⟩

/-! ## C8 — externalIp protocol order and failure behaviour -/

/-- C8: `externalIp` queries NAT-PMP first whenever a NAT-PMP client
was constructed; when the NAT-PMP attempt fails or times out (its
result is `''`) and a UPnP client exists, it falls back to the UPnP
query; it never throws on a live client (persistent failure of both
protocols yields `''`), and the only error it can produce is the
lifecycle error on a destroyed client. -/
theorem C8_externalIp_fallback :
    (∀ (s : NatState) (o : Oracle), s.destroyed = false → s.pmpClient = true →
      ∃ ip rest, NatAPI.externalIp s o = .ok (ip, Call.pmpIpQuery :: rest)) ∧
    (∀ (s : NatState) (o : Oracle), s.destroyed = false → s.pmpClient = true →
      s.upnpClient = true → o.pmpIpResult = "" →
      NatAPI.externalIp s o = .ok (o.upnpIpResult, [Call.pmpIpQuery, Call.upnpIpQuery])) ∧
    (∀ (s : NatState) (o : Oracle), s.destroyed = false →
      ∃ ip c, NatAPI.externalIp s o = .ok (ip, c)) ∧
    (∀ (s : NatState) (o : Oracle) (e : JsError),
      NatAPI.externalIp s o = .error e → e = .destroyed ∧ s.destroyed = true) := by
  have hlive : ∀ (s : NatState) (o : Oracle), s.destroyed = false →
      ∃ ip c, NatAPI.externalIp s o = .ok (ip, c) := by
    intro s o hd
    cases hp : s.pmpClient <;> cases hu : s.upnpClient <;>
      by_cases hip : o.pmpIpResult = "" <;> by_cases h2 : o.upnpIpResult = "" <;>
      simp [NatAPI.externalIp, NatAPI._pmpIp, NatAPI._upnpIp, hd, hp, hu, hip, h2]
  refine ⟨?_, ?_, hlive, ?_⟩
  · intro s o hd hp
    cases hu : s.upnpClient <;>
      by_cases hip : o.pmpIpResult = "" <;> by_cases h2 : o.upnpIpResult = "" <;>
      simp [NatAPI.externalIp, NatAPI._pmpIp, NatAPI._upnpIp, hd, hp, hu, hip, h2]
  · intro s o hd hp hu hip
    by_cases h2 : o.upnpIpResult = "" <;>
      simp [NatAPI.externalIp, NatAPI._pmpIp, NatAPI._upnpIp, hd, hp, hu, hip, h2]
  · intro s o e h
    cases hd : s.destroyed
    · obtain ⟨ip, c, heq⟩ := hlive s o hd
      rw [heq] at h
      simp at h
    · constructor
      · unfold NatAPI.externalIp at h
        rw [hd] at h
        simp at h
        exact h.symm
      · rfl

/-- C8, witnessed: on a default client whose NAT-PMP query fails, the
external-ip call queries NAT-PMP first and falls back to UPnP. -/
theorem C8_externalIp_fallback_witness :
    stDefault.destroyed = false ∧ stDefault.pmpClient = true ∧
    stDefault.upnpClient = true ∧ oracleAllFail.pmpIpResult = "" ∧
    NatAPI.externalIp stDefault oracleAllFail
      = .ok (oracleAllFail.upnpIpResult, [Call.pmpIpQuery, Call.upnpIpQuery]) :=
  ⟨rfl, rfl, rfl, rfl,
    C8_externalIp_fallback.2.1 stDefault oracleAllFail rfl rfl rfl rfl⟩

/-! ## C9 — auto-renewal schedule -/

/-- The resolved request of `map({publicPort: 4000, privatePort: 4000,
protocol: 'UDP', ttl: 1800})` on a default client (per-call ttl 1800
overrides the instance ttl 7200 for the request itself). -/
def c9Opts : Opts := ⟨4000, 4000, some "UDP", "NatAPI", 1800, none⟩

/-- The state after that map succeeds over NAT-PMP. -/
def c9St : NatState :=
  { stDefault with
      openPorts := [c9Opts]
      pmpIntervals := [("4000:4000-UDP", ⟨6600000, .pmpNoop c9Opts⟩)] }

/-- C9 counterexample: a mapping whose resolved ttl is 1800 s schedules
its renewal interval with period 6 600 000 ms = (7200 − 600)·1000 — the
orchestrator's configured ttl, not the mapping's resolved ttl, whose
(1800 − 600)·1000 = 1 200 000 ms differs; moreover firing the stored
NAT-PMP renewal performs no protocol call at all (the callback awaits a
bound, never-invoked function), so the "recurring re-issue of the same
mapping request" does not happen for NAT-PMP-established mappings. -/
theorem C9_counterexample :
    NatAPI.map stDefault oracleAllOk (.obj ⟨4000, 4000, some "UDP", none, some 1800, none⟩)
      = .ok (true, c9St, [Call.pmpMap c9Opts]) ∧
    c9Opts.ttl = 1800 ∧
    getKey c9St.pmpIntervals "4000:4000-UDP" = some ⟨6600000, .pmpNoop c9Opts⟩ ∧
    (6600000 : Int) = (stDefault.ttl - 600) * 1000 ∧
    ¬((6600000 : Int) = (c9Opts.ttl - 600) * 1000) ∧
    NatAPI.runRenewal c9St oracleAllOk ⟨6600000, .pmpNoop c9Opts⟩ = (c9St, []) :=
  ⟨rfl, rfl, rfl, rfl, by decide, rfl⟩

theorem getKey_setKey (m : List (String × IntervalJob)) (k : String) (v : IntervalJob) :
    getKey (setKey m k v) k = some v := by
  induction m with
  | nil => simp [setKey, getKey]
  | cons a t ih =>
    by_cases h : a.1 = k
    · simp [setKey, getKey, h]
    · simp only [getKey] at ih
      simp [setKey, getKey, h, ih]

theorem _upnpMap_calls (s : NatState) (o : Oracle) (p : Opts) :
    (NatAPI._upnpMap s o p).2.2 = [Call.upnpMap p] := by
  unfold NatAPI._upnpMap
  split
  · split <;> rfl
  · rfl

/-- C9 amended: when auto-update is enabled each successful mapping
stores, under its `public:private-protocol` key, a recurring interval
whose period is `(T − 600) * 1000` ms for `T` the *orchestrator's
configured* ttl (`_timeout`, fixed at construction — a per-request ttl
does not change it); the interval for a UPnP-established mapping
re-runs `_upnpMap` on the identical request (UPnP only — no fallback
chain), while the interval for a NAT-PMP-established mapping performs
no protocol call when it fires (its callback never invokes the bound
`_pmpMap`, and any failure would be swallowed); and firing a renewal
never changes the `openPorts` registry nor returns an error to
anyone. -/
theorem C9_renewal_schedule :
    (∀ (opts : CtorOpts) (g : Bool),
      (newNatAPI opts g).timeout = ((newNatAPI opts g).ttl - 600) * 1000) ∧
    (∀ (s : NatState) (o : Oracle) (p : Opts),
      s.autoUpdate = true → (NatAPI._pmpMap s o p).1 = true →
      getKey ((NatAPI._pmpMap s o p).2.1).pmpIntervals (intervalKey p)
        = some ⟨s.timeout, .pmpNoop p⟩) ∧
    (∀ (s : NatState) (o : Oracle) (p : Opts),
      s.autoUpdate = true → (NatAPI._upnpMap s o p).1 = true →
      getKey ((NatAPI._upnpMap s o p).2.1).upnpIntervals (intervalKey p)
        = some ⟨s.timeout, .upnpRemap p⟩) ∧
    (∀ (s : NatState) (o : Oracle) (j : IntervalJob),
      (NatAPI.runRenewal s o j).1.openPorts = s.openPorts) ∧
    (∀ (s : NatState) (o : Oracle) (t : Int) (p : Opts),
      NatAPI.runRenewal s o ⟨t, .pmpNoop p⟩ = (s, [])) ∧
    (∀ (s : NatState) (o : Oracle) (t : Int) (p : Opts),
      ∀ k ∈ (NatAPI.runRenewal s o ⟨t, .upnpRemap p⟩).2, k = Call.upnpMap p) := by
  refine ⟨?_, ?_, ?_, ?_, ?_, ?_⟩
  · intro opts g
    rfl
  · intro s o p ha hr
    unfold NatAPI._pmpMap at hr ⊢
    by_cases hok : o.pmpMapOk p
    · simp [hok, ha, getKey_setKey]
    · simp [hok] at hr
  · intro s o p ha hr
    unfold NatAPI._upnpMap at hr ⊢
    by_cases hok : o.upnpMapOk p
    · simp [hok, ha, getKey_setKey]
    · simp [hok] at hr
  · intro s o j
    rcases j with ⟨t, body⟩
    cases body with
    | pmpNoop p => rfl
    | upnpRemap p =>
      simp only [NatAPI.runRenewal]
      exact _upnpMap_openPorts s o p
  · intro s o t p
    rfl
  · intro s o t p k hk
    simp only [NatAPI.runRenewal, _upnpMap_calls, List.mem_singleton] at hk
    exact hk

/-- C9 amended, witnessed: a successful NAT-PMP map on the default
client stores the interval with period `stDefault.timeout`. -/
theorem C9_renewal_schedule_witness :
    stDefault.autoUpdate = true ∧
    (NatAPI._pmpMap stDefault oracleAllOk c9Opts).1 = true ∧
    getKey ((NatAPI._pmpMap stDefault oracleAllOk c9Opts).2.1).pmpIntervals
      (intervalKey c9Opts) = some ⟨stDefault.timeout, .pmpNoop c9Opts⟩ :=
  ⟨rfl, rfl, C9_renewal_schedule.2.1 stDefault oracleAllOk c9Opts rfl rfl⟩

/-- C5 amended, witnessed at protocol `'ICMP'` and the bad shape. -/
theorem C5_amended_witness :
    (OptsIn.mk 1 1 (some "ICMP") none none none).protocol = some "ICMP" ∧
    "ICMP" ≠ "" ∧ jsToUpper "ICMP" ≠ "UDP" ∧ jsToUpper "ICMP" ≠ "TCP" ∧
    stDefault.destroyed = false ∧
    NatAPI.validateInput stDefault (.obj ⟨1, 1, some "ICMP", none, none, none⟩)
      = .error .protocolInvalid ∧
    NatAPI.map stDefault oracleAllOk .bad = .error .portNotSpecified :=
  ⟨rfl, by decide, by decide, by decide, rfl,
    (C5_amended.2.2.1 stDefault ⟨1, 1, some "ICMP", none, none, none⟩ "ICMP" rfl
      (by decide) (by decide) (by decide)).1,
    (C5_amended.2.1 stDefault oracleAllOk rfl).1⟩

end NatApi
